import Mathlib

/-!
Verification development for the daedalos repository: a shallow embedding of
the gate policy engine, the loop engine, the undo daemon's backup store, the
workspace subagent records, the best-of-N scorer, and the process-pool stop
and eviction logic, together with theorems settling the frozen claims.

Conventions of the embedding:
* Python dicts are association lists `List (String × α)` where the *last*
  binding for a key wins (`dlookup`); `{**a, **b}` and `a.update(b)` are both
  `a ++ b` under that lookup.
* Filesystems are functions `String → Option (List Nat)` (path to bytes).
* Real time, PIDs and formatted timestamps are opaque `String` inputs.
* Cryptographic hashing (SHA-256 prefixes) is abstracted as a function
  parameter; theorems that rely on content addressing carry an explicit
  collision-freedom hypothesis for the contents involved.
-/

namespace Daedalos

/-- Lookup in a Python-dict-style association list: the last binding wins,
matching the semantics of repeated `dict` updates and `{**a, **b}` merges. -/
def dlookup {α : Type} (d : List (String × α)) (k : String) : Option α :=
  (d.reverse.find? (fun p => p.1 == k)).map (fun p => p.2)

/-- Membership test, matching Python `k in d`. -/
def dmem {α : Type} (d : List (String × α)) (k : String) : Bool :=
  (dlookup d k).isSome

namespace Gates

/-- `SUPERVISION_LEVELS` from gates/lib/config.py, most to least autonomous. -/
def SUPERVISION_LEVELS : List String :=
  ["autonomous", "supervised", "collaborative", "assisted", "manual"]

/-- `GATE_ACTIONS` from gates/lib/config.py. -/
def GATE_ACTIONS : List String := ["allow", "notify", "approve", "deny"]

/-- `DEFAULT_GATES` from gates/lib/config.py: per-level default gate actions. -/
def DEFAULT_GATES (level : String) : List (String × String) :=
  if level == "autonomous" then
    [("file_delete", "notify"), ("file_create", "allow"), ("file_modify", "allow"),
     ("git_commit", "allow"), ("git_push", "notify"), ("git_force_push", "approve"),
     ("loop_start", "allow"), ("agent_spawn", "allow"), ("shell_command", "allow"),
     ("sensitive_file", "approve")]
  else if level == "supervised" then
    [("file_delete", "approve"), ("file_create", "notify"), ("file_modify", "notify"),
     ("git_commit", "notify"), ("git_push", "approve"), ("git_force_push", "deny"),
     ("loop_start", "notify"), ("agent_spawn", "notify"), ("shell_command", "notify"),
     ("sensitive_file", "approve")]
  else if level == "collaborative" then
    [("file_delete", "approve"), ("file_create", "approve"), ("file_modify", "notify"),
     ("git_commit", "approve"), ("git_push", "approve"), ("git_force_push", "deny"),
     ("loop_start", "approve"), ("agent_spawn", "approve"), ("shell_command", "approve"),
     ("sensitive_file", "approve")]
  else if level == "assisted" then
    [("file_delete", "approve"), ("file_create", "approve"), ("file_modify", "approve"),
     ("git_commit", "approve"), ("git_push", "approve"), ("git_force_push", "deny"),
     ("loop_start", "approve"), ("agent_spawn", "approve"), ("shell_command", "approve"),
     ("sensitive_file", "approve")]
  else if level == "manual" then
    [("file_delete", "approve"), ("file_create", "approve"), ("file_modify", "approve"),
     ("git_commit", "approve"), ("git_push", "approve"), ("git_force_push", "deny"),
     ("loop_start", "approve"), ("agent_spawn", "approve"), ("shell_command", "approve"),
     ("sensitive_file", "approve")]
  else
    -- `DEFAULT_GATES.get(self.level, DEFAULT_GATES["supervised"])`
    [("file_delete", "approve"), ("file_create", "notify"), ("file_modify", "notify"),
     ("git_commit", "notify"), ("git_push", "approve"), ("git_force_push", "deny"),
     ("loop_start", "notify"), ("agent_spawn", "notify"), ("shell_command", "notify"),
     ("sensitive_file", "approve")]

/-- `SupervisionConfig` from gates/lib/config.py (level, gates, overrides).
The `autonomy` limits dictionary is not modelled: no claim concerns the
autonomy caps, and the sensitive-path glob matching is abstracted as a
predicate parameter where needed. -/
structure SupervisionConfig where
  level : String
  gates : List (String × String)
  overrides : List (String × String)
  deriving Repr, DecidableEq

/-- `SupervisionConfig.__post_init__`: validate the level (fall back to
"supervised") and merge the level's default gates under the explicit ones
(`{**default_gates, **self.gates}`). -/
def mkSupervisionConfig (level : String) (gates overrides : List (String × String)) :
    SupervisionConfig :=
  let level1 := if level ∈ SUPERVISION_LEVELS then level else "supervised"
  { level := level1
    gates := DEFAULT_GATES level1 ++ gates
    overrides := overrides }

/-- `SupervisionConfig.get_gate`: overrides first, then gates, default "approve". -/
def SupervisionConfig.get_gate (cfg : SupervisionConfig) (gate_name : String) : String :=
  match dlookup cfg.overrides gate_name with
  | some a => a
  | none => (dlookup cfg.gates gate_name).getD "approve"

/-- Parsed user-global `supervision.yaml` contents as consumed by
`load_config` (`data.get("level")`, `data.get("gates", {})`,
`data.get("overrides", {})`). -/
structure ConfigData where
  level : Option String
  gates : List (String × String)
  overrides : List (String × String)
  deriving Repr

/-- `load_config` from gates/lib/config.py. `none` stands for a missing or
unparsable config file, which yields the default `SupervisionConfig()`. -/
def load_config (userData : Option ConfigData) : SupervisionConfig :=
  match userData with
  | none => mkSupervisionConfig "supervised" [] []
  | some d => mkSupervisionConfig (d.level.getD "supervised") d.gates d.overrides

/-- Parsed project-local `.daedalos/supervision.yaml` contents as consumed by
`load_project_config` (`data.get("level")`, `data.get("gates", {})`). -/
structure ProjectData where
  level : Option String
  gates : List (String × String)
  deriving Repr

/-- `load_project_config` from gates/lib/config.py: load the user-global
config, apply the project file's `gates` dict onto `overrides`
unconditionally, then raise the level only if the project level is valid and
strictly stricter, rebuilding the config (which re-runs `__post_init__` on
the already-merged gates). `none` stands for a missing or unparsable project
file. -/
def load_project_config (userData : Option ConfigData) (projData : Option ProjectData) :
    SupervisionConfig :=
  let config := load_config userData
  match projData with
  | none => config
  | some p =>
    let config1 : SupervisionConfig :=
      { config with overrides := config.overrides ++ p.gates }
    match p.level with
    | none => config1
    | some pl =>
      if pl ∈ SUPERVISION_LEVELS then
        if SUPERVISION_LEVELS.indexOf pl > SUPERVISION_LEVELS.indexOf config1.level then
          mkSupervisionConfig pl config1.gates config1.overrides
        else config1
      else config1

/-- `GateResult` from gates/lib/checker.py. -/
structure GateResult where
  allowed : Bool
  action : String
  reason : String
  approved_by : Option String
  deriving Repr, DecidableEq

/-- `prompt_for_approval` from gates/lib/checker.py: returns false when stdin
is not a TTY; otherwise the stripped, lowercased response must be "y" or
"yes" (`none` models EOF / KeyboardInterrupt). -/
def prompt_for_approval (isatty : Bool) (userInput : Option String) : Bool :=
  if !isatty then false
  else
    match userInput with
    | none => false
    | some s =>
      let r := s.trim.toLower
      r == "y" || r == "yes"

/-- The gate-action resolution at the top of `check_gate`: if the context
carries a path that matches a sensitive pattern, use the `sensitive_file`
gate's action, else the named gate's action. `sensitiveP` abstracts
`SupervisionConfig.is_sensitive_path` (fnmatch glob matching, whose internals
no claim depends on). -/
def resolvedGateAction (cfg : SupervisionConfig) (sensitiveP : String → Bool)
    (gate : String) (ctxPath : Option String) : String :=
  match ctxPath with
  | some p => if sensitiveP p then cfg.get_gate "sensitive_file" else cfg.get_gate gate
  | none => cfg.get_gate gate

/-- `check_gate` from gates/lib/checker.py, returning the `GateResult`.
The audit-log append and the stderr notification are observability effects
not modelled here. -/
def check_gate (cfg : SupervisionConfig) (sensitiveP : String → Bool)
    (gate : String) (ctxPath : Option String)
    (interactive : Bool) (isatty : Bool) (userInput : Option String) : GateResult :=
  let gate_action := resolvedGateAction cfg sensitiveP gate ctxPath
  if gate_action == "allow" then
    { allowed := true, action := "allow", reason := "Gate configured to allow",
      approved_by := some "auto" }
  else if gate_action == "notify" then
    { allowed := true, action := "notify", reason := "User notified, proceeding",
      approved_by := some "auto" }
  else if gate_action == "deny" then
    { allowed := false, action := "deny", reason := "Gate configured to deny",
      approved_by := some "auto" }
  else if gate_action == "approve" then
    if interactive then
      let approved := prompt_for_approval isatty userInput
      { allowed := approved, action := "approve",
        reason := if approved then "User approved" else "User denied",
        approved_by := if approved then some "user" else none }
    else
      { allowed := false, action := "approve",
        reason := "Approval required but running non-interactively",
        approved_by := none }
  else
    { allowed := false, action := "approve",
      reason := "Unknown gate action: " ++ gate_action,
      approved_by := none }

end Gates

namespace LoopEng

/-- `LoopStatus` from loop/lib/state.py. -/
inductive LoopStatus where
  | pending
  | running
  | paused
  | completed
  | failed
  | cancelled
  deriving Repr, DecidableEq

/-- `LoopIteration` from loop/lib/state.py. The wall-clock timestamps,
captured command output and change summaries are observability-only string
fields and are not modelled. -/
structure LoopIteration where
  number : Nat
  checkpoint_id : String
  promise_result : Bool
  deriving Repr, DecidableEq

/-- `LoopState` from loop/lib/state.py, restricted to the fields the loop's
control flow reads or writes (id, prompt, timestamps and the agent name are
opaque strings that do not influence control flow). -/
structure LoopState where
  status : LoopStatus
  max_iterations : Nat
  current_iteration : Nat
  iterations : List LoopIteration
  initial_checkpoint : String
  error_message : Option String
  deriving Repr, DecidableEq

/-- The environment a `Loop.run` call observes: the outcome of the initial
`verify_promise` call, whether the initial and the per-iteration checkpoint
creations succeed, and the promise outcome evaluated after each iteration. -/
structure LoopEnv where
  initialPromise : Bool
  initialCheckpointOk : Bool
  iterCheckpointOk : Nat → Bool
  promisePasses : Nat → Bool

/-- Observable effects of the loop engine: promise evaluation, checkpoint
creation, the agent subprocess invocation, the 1-second pause tick, and a
state save to disk. Index 0 marks the pre-loop initial promise check and
initial checkpoint. -/
inductive LoopEvent where
  | verifyPromiseEv (k : Nat)
  | createCheckpointEv (k : Nat)
  | agentRunEv (k : Nat)
  | sleepTick
  | saveEv
  deriving Repr, DecidableEq

/-- The state a fresh `Loop.__init__` builds (status pending, counter 0,
empty iteration list). -/
def initLoopState (maxIterations : Nat) : LoopState :=
  { status := .pending
    max_iterations := maxIterations
    current_iteration := 0
    iterations := []
    initial_checkpoint := ""
    error_message := none }

/-- `Loop._run_iteration`: bump the counter, create the iteration checkpoint
(recording `failed_<k>` when the backend raises), invoke the agent, evaluate
the promise, append the iteration record and save. Returns the promise
outcome, the state after the iteration, and the emitted effects. -/
def runIteration (env : LoopEnv) (mem : LoopState) :
    Bool × LoopState × List LoopEvent :=
  let k := mem.current_iteration + 1
  let ckpt := if env.iterCheckpointOk k then "ck_" ++ toString k else "failed_" ++ toString k
  let pass := env.promisePasses k
  let iter : LoopIteration := { number := k, checkpoint_id := ckpt, promise_result := pass }
  let mem1 := { mem with current_iteration := k, iterations := mem.iterations ++ [iter] }
  (pass, mem1, [.createCheckpointEv k, .agentRunEv k, .verifyPromiseEv k, .saveEv])

/-- Outcome of one pass over the body of the `while` loop in `Loop.run`:
either the run returns (with its boolean result) or the loop continues.
`mem` is the in-memory `self.state`; `disk` is the persisted state file. -/
inductive RunStepOut where
  | done (result : Bool) (mem disk : LoopState)
  | next (mem disk : LoopState)
  deriving Repr, DecidableEq

/-- One pass of the `while self.state.current_iteration < self.max_iterations`
loop in `Loop.run`, including the loop-exit path. `maxIter` is the Loop
object's own `max_iterations` attribute: the while condition reads it from
the Loop, not from the (reloadable) persisted state. Faithful points: the
pause/cancel checks read the *in-memory* status; the persisted state is
re-read (`LoopState.load`) only inside the paused branch, after the 1-second
sleep; a cancelled status returns False without a further save; a passing
iteration sets status completed and saves; exhausting the iteration budget
sets the terminal error message, status failed, and saves. -/
def runStep (env : LoopEnv) (maxIter : Nat) (mem disk : LoopState) :
    RunStepOut × List LoopEvent :=
  if mem.current_iteration < maxIter then
    if mem.status = .paused then
      (.next disk disk, [.sleepTick])
    else if mem.status = .cancelled then
      (.done false mem disk, [])
    else
      let r := runIteration env mem
      if r.1 then
        let m2 := { r.2.1 with status := .completed }
        (.done true m2 m2, r.2.2 ++ [.saveEv])
      else
        (.next r.2.1 r.2.1, r.2.2)
  else
    let m := { mem with
      status := .failed
      error_message := some ("Max iterations (" ++ toString maxIter
        ++ ") reached without meeting promise") }
    (.done false m m, [.saveEv])

/-- Iterate `runStep` with fuel (the loop can sleep forever while paused, so
the model is fuel-indexed; `none` means the fuel ran out). External actors
are quiescent during this iteration: the disk state evolves only through the
loop's own saves and reloads. -/
def runLoopSteps (env : LoopEnv) (maxIter : Nat) : Nat → LoopState → LoopState →
    Option (Bool × LoopState × LoopState) × List LoopEvent
  | 0, _, _ => (none, [])
  | fuel + 1, mem, disk =>
    match runStep env maxIter mem disk with
    | (.done r m d, evs) => (some (r, m, d), evs)
    | (.next m d, evs) =>
      let rest := runLoopSteps env maxIter fuel m d
      (rest.1, evs ++ rest.2)

/-- `Loop.run` from loop/lib/state.py: evaluate the promise up front and
finish completed if it already passes; otherwise create the initial
checkpoint (terminal failure if that raises), set status running, and enter
the iteration loop. -/
def loopRun (env : LoopEnv) (maxIter fuel : Nat) (st : LoopState) :
    Option (Bool × LoopState × LoopState) × List LoopEvent :=
  if env.initialPromise then
    let m := { st with status := .completed }
    (some (true, m, m), [.verifyPromiseEv 0, .saveEv])
  else if env.initialCheckpointOk then
    let m1 := { st with initial_checkpoint := "initial" }
    let m2 := { m1 with status := .running }
    let rest := runLoopSteps env maxIter fuel m2 m2
    (rest.1, [.verifyPromiseEv 0, .createCheckpointEv 0, .saveEv] ++ rest.2)
  else
    let m := { st with
      error_message := some "Failed to create initial checkpoint"
      status := .failed }
    (some (false, m, m), [.verifyPromiseEv 0, .saveEv])

end LoopEng

namespace BestOfN

/-- `score_result` from loop/lib/bestofn.py, as a function of the branch
observations it consumes: whether the branch's promise passed, the branch's
iteration budget and iterations used (Python int subtraction, hence ℤ),
the number of non-blank lines of `git diff --stat --cached` output (`none`
when git is unavailable or times out), and the `total.lines.pct` value of a
`coverage/coverage-summary.json` report (`none` when absent or malformed).
Scores are ℚ; every literal involved (100, 10, 0.5) is exact in the source's
binary floating point, so ℚ is a faithful carrier for these operations. -/
def score_result (success : Bool) (max_iterations iterations_used : Nat)
    (diffStatLines : Option Nat) (coveragePct : Option ℚ) : ℚ :=
  let base : ℚ := if success then 100 else 0
  let iteration_bonus : ℚ := ((max_iterations : ℤ) - (iterations_used : ℤ)) * 10
  let change_penalty : ℚ :=
    match diffStatLines with
    | some m => (m : ℚ) * (1 / 2)
    | none => 0
  let coverage_bonus : ℚ :=
    match coveragePct with
    | some pct => pct * (1 / 2)
    | none => 0
  base + iteration_bonus - change_penalty + coverage_bonus

/-- Modelled from the claim (and the source's own docstring, "+coverage%"):
the same scoring formula with the full coverage percentage added, instead of
the `pct * 0.5` the code performs. Defined solely to exhibit the divergence. -/
def score_claimed (success : Bool) (max_iterations iterations_used : Nat)
    (diffStatLines : Option Nat) (coveragePct : Option ℚ) : ℚ :=
  let base : ℚ := if success then 100 else 0
  let iteration_bonus : ℚ := ((max_iterations : ℤ) - (iterations_used : ℤ)) * 10
  let change_penalty : ℚ :=
    match diffStatLines with
    | some m => (m : ℚ) * (1 / 2)
    | none => 0
  let coverage_bonus : ℚ :=
    match coveragePct with
    | some pct => pct
    | none => 0
  base + iteration_bonus - change_penalty + coverage_bonus

end BestOfN

namespace Undo

/-- Abstracted OS and hashing primitives used by undod.py: the 16-hex-char
SHA-256 content prefix, the 12-hex-char entry-id hash of path ++ timestamp,
and `Path.parent`. Their internals influence no claim; content-addressing
theorems carry explicit collision-freedom hypotheses. -/
structure UndoPrims where
  contentHash : List Nat → String
  idHash : String → String
  dirname : String → String

/-- `UndoEntry` from undod.py. -/
structure UndoEntry where
  id : String
  timestamp : String
  change_type : String
  file_path : String
  description : String
  backup_hash : Option String
  file_size : Nat
  project_path : String
  deriving Repr, DecidableEq

/-- The undo daemon's persistent and in-memory state: the content-addressed
backup directory (`<backup-dir>/<hash>` files), the SQLite `entries` table,
and the two stats counters. -/
structure UndoState where
  blobs : List (String × List Nat)
  timeline : List UndoEntry
  changes_recorded : Nat
  files_backed_up : Nat
  deriving Repr, DecidableEq

/-- The default `DaemonConfig.max_file_size` (10 MB). -/
def defaultMaxFileSize : Nat := 10 * 1024 * 1024

/-- `UndoDatabase.backup_file`: read the file's bytes, hash them, write the
blob only if absent, and return the hash; `none` for a missing file. The
PermissionError/OSError path (silent drop) is outside this model: claims
about backups presuppose a readable file. -/
def backup_file (prims : UndoPrims) (blobs : List (String × List Nat))
    (fs : String → Option (List Nat)) (path : String) :
    Option String × List (String × List Nat) :=
  match fs path with
  | none => (none, blobs)
  | some content =>
    let file_hash := prims.contentHash content
    let blobs1 := if (dlookup blobs file_hash).isSome then blobs
                  else blobs ++ [(file_hash, content)]
    (some file_hash, blobs1)

/-- `UndoDatabase.restore_file`: fail if the blob is missing, else write the
stored bytes back to the path (parent-directory creation is a no-op in the
map-based filesystem model). -/
def restore_file (blobs : List (String × List Nat)) (fs : String → Option (List Nat))
    (path : String) (backup_hash : String) :
    Bool × (String → Option (List Nat)) :=
  match dlookup blobs backup_hash with
  | none => (false, fs)
  | some content => (true, fun q => if q = path then some content else fs q)

/-- `UndoDatabase.add_entry` (`INSERT OR REPLACE` keyed by id): any existing
row with the same id is replaced; the new row is appended. -/
def add_entry (timeline : List UndoEntry) (e : UndoEntry) : List UndoEntry :=
  timeline.filter (fun x => x.id != e.id) ++ [e]

/-- `UndoDaemon.record_change`: skip oversized files entirely; back up the
content unless the change is a delete or the file is gone; append a timeline
entry and bump the counters. `now` is the formatted `datetime.now()`
timestamp. The OSError-on-stat path (silent return) is not modelled. -/
def record_change (prims : UndoPrims) (max_file_size : Nat) (st : UndoState)
    (fs : String → Option (List Nat)) (path change_type now : String) : UndoState :=
  match fs path with
  | some content =>
    if content.length > max_file_size then st
    else
      let br := if change_type != "delete" then backup_file prims st.blobs fs path
                else (none, st.blobs)
      let files_backed_up1 := if br.1.isSome then st.files_backed_up + 1
                              else st.files_backed_up
      let entry : UndoEntry :=
        { id := prims.idHash (path ++ now)
          timestamp := now
          change_type := change_type
          file_path := path
          description := "File " ++ change_type ++ "d"
          backup_hash := br.1
          file_size := content.length
          project_path := prims.dirname path }
      { blobs := br.2
        timeline := add_entry st.timeline entry
        changes_recorded := st.changes_recorded + 1
        files_backed_up := files_backed_up1 }
  | none =>
    let entry : UndoEntry :=
      { id := prims.idHash (path ++ now)
        timestamp := now
        change_type := change_type
        file_path := path
        description := "File " ++ change_type ++ "d"
        backup_hash := none
        file_size := 0
        project_path := prims.dirname path }
    { st with
      timeline := add_entry st.timeline entry
      changes_recorded := st.changes_recorded + 1 }

end Undo

namespace Pool

/-- Observable effects of stopping a child server, in the order the stop path
performs them. `processWait` is an `await process.wait()` (possibly bounded
by a timeout). -/
inductive StopEvent where
  | cancelStderrTask
  | sendShutdownRequest
  | sendExitNotification
  | sigterm
  | sigkill
  | processWait
  | removeFromMap
  deriving Repr, DecidableEq

/-- `MCPHubDaemon._stop_server` from mcp-hub/mcphub/daemon.py as its effect
trace. Parameters: whether the name is in the server map, whether a stderr
collector task is registered, whether the record holds a live process handle,
and whether the process exits within the 5-second wait after SIGTERM.
The generic-exception swallow (`except Exception: pass`) is not reachable in
this model, where terminate/kill/wait themselves do not raise. -/
def mcpHubStopTrace (inMap hasStderrTask hasProcess termExitsWithin5s : Bool) :
    List StopEvent :=
  if !inMap then []
  else
    (if hasStderrTask then [.cancelStderrTask] else []) ++
    (if hasProcess then
      [.sigterm] ++
      (if termExitsWithin5s then [.processWait] else [.processWait, .sigkill, .processWait])
     else []) ++
    [.removeFromMap]

/-- `ServerManager._stop_server` from lsp-pool/lsppool/servers.py as its
effect trace. Parameters: whether the key is in the server map, whether the
record holds a live process handle, whether the shutdown request completes
within its 5-second bound, and whether the process then exits within the
5-second wait. The lsp-pool manager keeps no stderr collector, and no
SIGTERM is ever sent: a timeout goes straight to `process.kill()`. -/
def lspPoolStopTrace (inMap hasProcess shutdownWithin5s exitsWithin5s : Bool) :
    List StopEvent :=
  if !inMap then []
  else
    (if hasProcess then
      [.sendShutdownRequest] ++
      (if shutdownWithin5s then
        [.sendExitNotification, .processWait] ++
        (if exitsWithin5s then [] else [.sigkill, .processWait])
       else [.sigkill, .processWait])
     else []) ++
    [.removeFromMap]

/-- `ServerState` from lsp-pool/lsppool/servers.py, restricted to the fields
the warm/eviction logic reads: the `language:project` key, the `last_query`
timestamp, the tracked RSS in MB, and the status string. Timestamps and
memory are ℚ (the source's floats stand for arbitrary measured reals; the
logic only compares and sums them). -/
structure ServerState where
  key : String
  last_query : ℚ
  memory_mb : ℚ
  status : String
  deriving Repr, DecidableEq

/-- First server with the minimal `last_query` in insertion order, matching
`sorted(self.servers.items(), key=lambda x: x[1].last_query)[0]` (Python's
sort is stable, so ties keep insertion order). -/
def oldestServer? : List ServerState → Option ServerState
  | [] => none
  | s :: rest =>
    match oldestServer? rest with
    | none => some s
    | some b => if b.last_query < s.last_query then some b else some s

/-- `ServerManager._evict_lowest_priority`: stop (remove) the server with the
oldest `last_query`; a no-op on an empty pool. -/
def evictLowestPriority (pool : List ServerState) : List ServerState :=
  match oldestServer? pool with
  | none => pool
  | some b => pool.eraseP (fun s => s.key == b.key)

/-- `ServerManager._current_memory`: total tracked RSS of the pool. -/
def currentMemory (pool : List ServerState) : ℚ :=
  (pool.map (fun s => s.memory_mb)).sum

/-- The `while` loop of `ServerManager._evict_for_memory`, fuel-indexed;
each round evicts the oldest server, so `pool.length` fuel always suffices. -/
def evictForMemoryGo (memory_limit_mb needed_mb : ℚ) :
    Nat → List ServerState → List ServerState
  | 0, pool => pool
  | fuel + 1, pool =>
    if currentMemory pool + needed_mb > memory_limit_mb ∧ pool ≠ [] then
      evictForMemoryGo memory_limit_mb needed_mb fuel (evictLowestPriority pool)
    else pool

/-- `ServerManager._evict_for_memory`: evict oldest-`last_query` servers
until the pool plus the new server's estimate fits under the cap (or the
pool is empty). -/
def evictForMemory (memory_limit_mb needed_mb : ℚ) (pool : List ServerState) :
    List ServerState :=
  evictForMemoryGo memory_limit_mb needed_mb pool.length pool

/-- The resource-limit section of `ServerManager.warm` (under the lock): one
eviction when the pool is at the concurrent-server cap, then the memory-cap
eviction loop when the estimate would not fit. -/
def warmEvictPhase (max_servers : Nat) (memory_limit_mb estimated : ℚ)
    (pool : List ServerState) : List ServerState :=
  let p1 := if pool.length ≥ max_servers then evictLowestPriority pool else pool
  if currentMemory p1 + estimated > memory_limit_mb then
    evictForMemory memory_limit_mb estimated p1
  else p1

/-- Dict assignment `self.servers[key] = server`: replace in place when the
key exists, else append (Python dicts keep insertion order). -/
def dinsert (pool : List ServerState) (newS : ServerState) : List ServerState :=
  if pool.any (fun s => s.key == newS.key) then
    pool.map (fun s => if s.key == newS.key then newS else s)
  else pool ++ [newS]

/-- The pool-state effect of a successful `ServerManager.warm` call: return
unchanged when the key is already warm, else run the eviction phase and
admit the new server. The config lookup and process spawn between eviction
and admission are orthogonal to the pool arithmetic and elided on this
success path. -/
def warmModel (max_servers : Nat) (memory_limit_mb estimated : ℚ)
    (pool : List ServerState) (newS : ServerState) : List ServerState :=
  if pool.any (fun s => s.key == newS.key && s.status == "warm") then pool
  else dinsert (warmEvictPhase max_servers memory_limit_mb estimated pool) newS

/-- Modelled from the claim: when admitting the new server would exceed the
maximum concurrent-server count, evict the server with the oldest
`last_query`; then, while the pool's memory plus the new server's estimate
is over the cap (and servers remain), keep evicting the oldest; only then
admit the new server. -/
def warmClaimed (max_servers : Nat) (memory_limit_mb estimated : ℚ)
    (pool : List ServerState) (newS : ServerState) : List ServerState :=
  if pool.any (fun s => s.key == newS.key && s.status == "warm") then pool
  else
    let p1 := if pool.length + 1 > max_servers then evictLowestPriority pool else pool
    dinsert (evictForMemory memory_limit_mb estimated p1) newS

end Pool

namespace Ws

/-- `SubagentStatus` from loop/lib/workspace.py. -/
inductive SubagentStatus where
  | pending
  | running
  | completed
  | failed
  | cancelled
  deriving Repr, DecidableEq

/-- `SubagentRecord` from loop/lib/workspace.py. -/
structure SubagentRecord where
  id : String
  type : String
  objective : String
  status : SubagentStatus
  loop_id : Option String
  started_at : Option String
  finished_at : Option String
  promise_result : Option Bool
  output_summary : String
  error : Option String
  deriving Repr, DecidableEq

/-- `Workspace.register_subagent`: a fresh pending record. -/
def register_subagent (subagent_id subagent_type objective : String) : SubagentRecord :=
  { id := subagent_id
    type := subagent_type
    objective := objective
    status := .pending
    loop_id := none
    started_at := none
    finished_at := none
    promise_result := none
    output_summary := ""
    error := none }

/-- The record mutation performed by `Workspace.update_subagent`: every
provided field is applied unconditionally; a status of running stamps
`started_at`, completed or failed stamps `finished_at` (`now` is the
formatted `datetime.now()`). -/
def update_subagent_record (r : SubagentRecord) (status : Option SubagentStatus)
    (loop_id : Option String) (promise_result : Option Bool)
    (output_summary : Option String) (error : Option String) (now : String) :
    SubagentRecord :=
  let r1 :=
    match status with
    | none => r
    | some s =>
      let r0 := { r with status := s }
      if s = .running then { r0 with started_at := some now }
      else if s = .completed ∨ s = .failed then { r0 with finished_at := some now }
      else r0
  let r2 := match loop_id with | none => r1 | some l => { r1 with loop_id := some l }
  let r3 := match promise_result with | none => r2 | some p => { r2 with promise_result := some p }
  let r4 := match output_summary with | none => r3 | some o => { r3 with output_summary := o }
  match error with | none => r4 | some e => { r4 with error := some e }

/-- `Workspace.update_subagent` at the subagent-map level: unknown ids are
ignored; a known id's record is mutated in place (the save to disk carries
no further record state). -/
def update_subagent (subs : List (String × SubagentRecord)) (subagent_id : String)
    (status : Option SubagentStatus) (loop_id : Option String)
    (promise_result : Option Bool) (output_summary : Option String)
    (error : Option String) (now : String) : List (String × SubagentRecord) :=
  match dlookup subs subagent_id with
  | none => subs
  | some r =>
    subs.map (fun p =>
      if p.1 == subagent_id then
        (p.1, update_subagent_record r status loop_id promise_result output_summary error now)
      else p)

end Ws

section Fixtures

open LoopEng Undo

/-- A loop environment whose initial promise fails, checkpoints succeed, and
every iteration's promise fails. -/
def envC2 : LoopEnv :=
  { initialPromise := false
    initialCheckpointOk := true
    iterCheckpointOk := fun _ => true
    promisePasses := fun _ => false }

/-- An in-memory running loop state (budget 2, no iterations yet). -/
def memC2 : LoopState := { initLoopState 2 with status := .running }

/-- The persisted copy of `memC2` after another actor wrote status paused. -/
def diskC2 : LoopState := { memC2 with status := .paused }

/-- `memC2` after one (failing) iteration. -/
def memSteppedC2 : LoopState :=
  { memC2 with
    current_iteration := 1
    iterations := [{ number := 1, checkpoint_id := "ck_1", promise_result := false }] }

/-- A paused in-memory loop state (budget 2). -/
def memPausedC2 : LoopState := { initLoopState 2 with status := .paused }

/-- A cancelled in-memory loop state (budget 2). -/
def memCancelledC2 : LoopState := { initLoopState 2 with status := .cancelled }

/-- Always-passing loop environment. -/
def envC5 : LoopEnv :=
  { initialPromise := true
    initialCheckpointOk := true
    iterCheckpointOk := fun _ => true
    promisePasses := fun _ => true }

/-- Toy hashing/OS primitives for concrete undo-daemon runs. -/
def primsC4 : UndoPrims :=
  { contentHash := fun c => "hash_" ++ toString c.length
    idHash := fun s => "id_" ++ s
    dirname := fun _ => "/tmp" }

/-- An empty undo-daemon state. -/
def undoEmptyState : UndoState :=
  { blobs := [], timeline := [], changes_recorded := 0, files_backed_up := 0 }

/-- A one-file filesystem holding two bytes at /tmp/x. -/
def fsC4 : String → Option (List Nat) :=
  fun q => if q = "/tmp/x" then some [104, 105] else none

end Fixtures

section Lemmas

/-- Appending a binding makes it the winning one under last-wins lookup. -/
theorem dlookup_concat {α : Type} (l : List (String × α)) (k : String) (v : α) :
    dlookup (l ++ [(k, v)]) k = some v := by
  simp [dlookup, List.reverse_append]

/-- A memory-eviction loop started under the cap is the identity. -/
theorem evictForMemory_of_fits (cap est : ℚ) (pool : List Pool.ServerState)
    (h : ¬ Pool.currentMemory pool + est > cap) :
    Pool.evictForMemory cap est pool = pool := by
  unfold Pool.evictForMemory
  cases hLen : pool.length with
  | zero => rfl
  | succ n =>
    unfold Pool.evictForMemoryGo
    simp [h]

end Lemmas

section Claims

open Gates LoopEng BestOfN Undo Pool Ws

/-- Claim C1, counterexample: with the default user-global config (level
supervised, so gate file_delete is under approve) and a project-local file
whose gates dict maps file_delete to allow, the effective action applied by
the policy engine for file_delete is the looser "allow". `load_project_config`
applies project gate overrides unconditionally; only the level is
strictness-checked. -/
theorem project_override_loosens_gate_action :
    (Gates.load_config none).get_gate "file_delete" = "approve"
    ∧ (Gates.load_project_config none
        (some { level := none, gates := [("file_delete", "allow")] })).get_gate "file_delete"
      = "allow" := by
  decide

/-- Claim C1, amended: the supervision *level* never loosens — the effective
level's index in SUPERVISION_LEVELS is at least the user-global level's
index, for every user-global config and project-local override file.
(Per-gate overrides, by contrast, are applied unconditionally.) -/
theorem project_level_never_loosens (userData : Option ConfigData)
    (projData : Option ProjectData) :
    SUPERVISION_LEVELS.indexOf (Gates.load_config userData).level
      ≤ SUPERVISION_LEVELS.indexOf (Gates.load_project_config userData projData).level := by
  unfold Gates.load_project_config
  cases projData with
  | none => exact le_refl _
  | some p =>
    cases hpl : p.level with
    | none => simp [hpl]
    | some pl =>
      simp only [hpl]
      split
      · split
        · next hgt =>
          simp only [Gates.mkSupervisionConfig]
          split
          · exact le_of_lt hgt
          · next hmem2 => next hmem => exact absurd hmem hmem2
        · exact le_refl _
      · exact le_refl _

/-- Claim C8, counterexample: under the default supervised config the
file_delete gate resolves to approve; a check with `interactive=True` but no
TTY is denied with action approve, yet its reason is "User denied", not the
claimed "approval required but running non-interactively" wording (which the
code emits only on the `interactive=False` path). -/
theorem approve_no_tty_reason_counterexample :
    Gates.check_gate (Gates.load_config none) (fun _ => false) "file_delete" none
        true false none
      = { allowed := false, action := "approve", reason := "User denied",
          approved_by := none }
    ∧ "User denied" ≠ "Approval required but running non-interactively" := by
  decide

/-- Claim C8, amended: whenever the effective gate action resolves to
approve, a non-interactive check (`interactive=False`) is denied with action
approve and reason "Approval required but running non-interactively", and an
interactive check without a TTY is also denied with action approve but with
reason "User denied"; in both cases `allowed` is false, so the gated action
does not proceed. -/
theorem check_gate_approve_without_tty (cfg : SupervisionConfig)
    (sensitiveP : String → Bool) (gate : String) (ctxPath : Option String)
    (isatty : Bool) (userInput : Option String)
    (h : resolvedGateAction cfg sensitiveP gate ctxPath = "approve") :
    Gates.check_gate cfg sensitiveP gate ctxPath false isatty userInput
      = { allowed := false, action := "approve",
          reason := "Approval required but running non-interactively",
          approved_by := none }
    ∧ Gates.check_gate cfg sensitiveP gate ctxPath true false userInput
      = { allowed := false, action := "approve", reason := "User denied",
          approved_by := none } := by
  constructor <;> simp [Gates.check_gate, h, Gates.prompt_for_approval]

/-- Witness for the amended C8 theorem at the default supervised config and
gate file_delete. -/
theorem check_gate_approve_without_tty_witness :
    resolvedGateAction (Gates.load_config none) (fun _ => false) "file_delete" none
      = "approve"
    ∧ (Gates.check_gate (Gates.load_config none) (fun _ => false) "file_delete" none
          false true none
        = { allowed := false, action := "approve",
            reason := "Approval required but running non-interactively",
            approved_by := none }
      ∧ Gates.check_gate (Gates.load_config none) (fun _ => false) "file_delete" none
          true false none
        = { allowed := false, action := "approve", reason := "User denied",
            approved_by := none }) :=
  ⟨by decide,
   check_gate_approve_without_tty (Gates.load_config none) (fun _ => false)
     "file_delete" none true none (by decide)⟩

/-- Claim C9, counterexample: `update_subagent` enforces no monotonicity — a
subagent moved to completed can subsequently be moved back to pending by a
later call, so completed is not terminal under arbitrary update sequences. -/
theorem subagent_status_moves_backward :
    (dlookup
        (Ws.update_subagent [("a", register_subagent "a" "explorer" "obj")] "a"
          (some .completed) none none none none "t1") "a").map SubagentRecord.status
      = some .completed
    ∧ (dlookup
        (Ws.update_subagent
          (Ws.update_subagent [("a", register_subagent "a" "explorer" "obj")] "a"
            (some .completed) none none none none "t1") "a"
          (some .pending) none none none none "t2") "a").map SubagentRecord.status
      = some .pending := by
  decide

/-- Claim C9, amended: `update_subagent` applies any requested status
unconditionally — after a call with status s the record's status is s,
whatever it was before (so completed and failed are not enforced as
terminal); a running status stamps `started_at` and a completed or failed
status stamps `finished_at` with the call's timestamp. -/
theorem update_subagent_sets_requested_status (r : SubagentRecord)
    (s : SubagentStatus) (l : Option String) (p : Option Bool)
    (o e : Option String) (now : String) :
    (update_subagent_record r (some s) l p o e now).status = s
    ∧ (update_subagent_record r (some .running) l p o e now).started_at = some now
    ∧ (update_subagent_record r (some .completed) l p o e now).finished_at = some now
    ∧ (update_subagent_record r (some .failed) l p o e now).finished_at = some now := by
  cases l <;> cases p <;> cases o <;> cases e <;> cases s <;>
    simp [Ws.update_subagent_record]

/-- Claim C3: the branch scorer adds only *half* the coverage percentage,
contradicting both the claim and the function's own docstring ("+coverage%").
At a passing branch with budget 5, 3 iterations used, an empty diff and an
80% coverage report, the code scores 160 while the documented formula gives
200. -/
theorem score_result_coverage_halved :
    BestOfN.score_result true 5 3 (some 0) (some 80) = 160
    ∧ BestOfN.score_claimed true 5 3 (some 0) (some 80) = 200 := by
  constructor <;> norm_num [BestOfN.score_result, BestOfN.score_claimed]

/-- Claim C4: for a path whose file exists, is readable and is within the
size limit, recording a change produces a timeline entry carrying the
content's hash, and restoring that entry after an arbitrary later mutation
of the filesystem writes back exactly the recorded bytes. The hypothesis
`hnocol` states that the 16-hex-char content-hash prefix has no stale
collision in the store for this content (content addressing). -/
theorem record_then_restore (prims : UndoPrims) (max_file_size : Nat)
    (st0 : UndoState) (fs0 : String → Option (List Nat))
    (P ct now : String) (C : List Nat)
    (hread : fs0 P = some C)
    (hsize : C.length ≤ max_file_size)
    (hct : ct ≠ "delete")
    (hnocol : dlookup st0.blobs (prims.contentHash C) = none
      ∨ dlookup st0.blobs (prims.contentHash C) = some C) :
    ∃ e, (Undo.record_change prims max_file_size st0 fs0 P ct now).timeline.getLast?
          = some e
      ∧ e.file_path = P
      ∧ e.backup_hash = some (prims.contentHash C)
      ∧ ∀ fs1 : String → Option (List Nat),
          (Undo.restore_file (Undo.record_change prims max_file_size st0 fs0 P ct now).blobs
              fs1 e.file_path (prims.contentHash C)).1 = true
          ∧ (Undo.restore_file (Undo.record_change prims max_file_size st0 fs0 P ct now).blobs
              fs1 e.file_path (prims.contentHash C)).2 P = some C := by
  have hle : ¬ C.length > max_file_size := not_lt.mpr hsize
  have hbne : (ct != "delete") = true := bne_iff_ne.mpr hct
  have hstore : dlookup
      (Undo.record_change prims max_file_size st0 fs0 P ct now).blobs
      (prims.contentHash C) = some C := by
    simp only [Undo.record_change, hread, hle, if_false, Undo.backup_file, hbne, if_true]
    rcases hnocol with hnone | hsome
    · simp [hnone, dlookup_concat]
    · simp [hsome]
  refine ⟨{ id := prims.idHash (P ++ now), timestamp := now, change_type := ct,
            file_path := P, description := "File " ++ ct ++ "d",
            backup_hash := some (prims.contentHash C), file_size := C.length,
            project_path := prims.dirname P }, ?_, rfl, rfl, ?_⟩
  · simp only [Undo.record_change, hread, hle, if_false, Undo.backup_file, hbne, if_true,
      Undo.add_entry]
    simp
  · intro fs1
    rw [Undo.restore_file, hstore]
    exact ⟨rfl, by simp⟩

/-- Witness for C4 at a concrete two-byte file in an empty store. -/
theorem record_then_restore_witness :
    fsC4 "/tmp/x" = some [104, 105]
    ∧ ([104, 105] : List Nat).length ≤ defaultMaxFileSize
    ∧ ("edit" : String) ≠ "delete"
    ∧ (dlookup undoEmptyState.blobs (primsC4.contentHash [104, 105]) = none
      ∨ dlookup undoEmptyState.blobs (primsC4.contentHash [104, 105]) = some [104, 105])
    ∧ ∃ e, (Undo.record_change primsC4 defaultMaxFileSize undoEmptyState fsC4
            "/tmp/x" "edit" "t0").timeline.getLast? = some e
        ∧ e.file_path = "/tmp/x"
        ∧ e.backup_hash = some (primsC4.contentHash [104, 105])
        ∧ ∀ fs1 : String → Option (List Nat),
            (Undo.restore_file
                (Undo.record_change primsC4 defaultMaxFileSize undoEmptyState fsC4
                  "/tmp/x" "edit" "t0").blobs
                fs1 e.file_path (primsC4.contentHash [104, 105])).1 = true
            ∧ (Undo.restore_file
                (Undo.record_change primsC4 defaultMaxFileSize undoEmptyState fsC4
                  "/tmp/x" "edit" "t0").blobs
                fs1 e.file_path (primsC4.contentHash [104, 105])).2 "/tmp/x"
              = some [104, 105] :=
  ⟨by decide, by decide, by decide, Or.inl (by decide),
   record_then_restore primsC4 defaultMaxFileSize undoEmptyState fsC4
     "/tmp/x" "edit" "t0" [104, 105] (by decide) (by decide) (by decide)
     (Or.inl (by decide))⟩

/-- Claim C10: a change whose file exists and exceeds the configured
max_file_size is dropped entirely by `record_change` — no blob is written,
no timeline entry of any kind is appended, and both counters are unchanged
(the whole daemon state is returned as-is). -/
theorem record_change_skips_oversized (prims : UndoPrims) (max_file_size : Nat)
    (st0 : UndoState) (fs0 : String → Option (List Nat)) (P ct now : String)
    (C : List Nat)
    (hread : fs0 P = some C)
    (hsize : C.length > max_file_size) :
    Undo.record_change prims max_file_size st0 fs0 P ct now = st0 := by
  simp [Undo.record_change, hread, hsize]

/-- Witness for C10: a two-byte file over a 1-byte limit leaves the daemon
state untouched. -/
theorem record_change_skips_oversized_witness :
    fsC4 "/tmp/x" = some [104, 105]
    ∧ ([104, 105] : List Nat).length > 1
    ∧ Undo.record_change primsC4 1 undoEmptyState fsC4 "/tmp/x" "edit" "t0"
      = undoEmptyState :=
  ⟨by decide, by decide,
   record_change_skips_oversized primsC4 1 undoEmptyState fsC4 "/tmp/x" "edit" "t0"
     [104, 105] (by decide) (by decide)⟩

/-- Claim C5: when the promise already passes before the first iteration,
`Loop.run` marks the loop completed and returns success; the iterations list
stays empty and the counter stays 0 (the returned states are the fresh state
with only the status changed), and the only effects are the initial promise
evaluation and the state save — no checkpoint creation and no agent
invocation occur. -/
theorem loopRun_already_passing (env : LoopEnv) (fuel m : Nat)
    (h : env.initialPromise = true) :
    LoopEng.loopRun env m fuel (initLoopState m)
      = (some (true, { initLoopState m with status := .completed },
               { initLoopState m with status := .completed }),
         [.verifyPromiseEv 0, .saveEv])
    ∧ ({ initLoopState m with status := LoopStatus.completed }).iterations = []
    ∧ ({ initLoopState m with status := LoopStatus.completed }).current_iteration = 0 := by
  refine ⟨?_, rfl, rfl⟩
  simp [LoopEng.loopRun, h]

/-- Witness for C5 with an always-passing environment and budget 2. -/
theorem loopRun_already_passing_witness :
    envC5.initialPromise = true
    ∧ (LoopEng.loopRun envC5 2 3 (initLoopState 2)
        = (some (true, { initLoopState 2 with status := .completed },
                 { initLoopState 2 with status := .completed }),
           [.verifyPromiseEv 0, .saveEv])
      ∧ ({ initLoopState 2 with status := LoopStatus.completed }).iterations = []
      ∧ ({ initLoopState 2 with status := LoopStatus.completed }).current_iteration = 0) :=
  ⟨rfl, loopRun_already_passing envC5 3 2 rfl⟩

/-- Claim C2, counterexample: between iterations `Loop.run` inspects only the
in-memory status — with the in-memory state running but the persisted state
already written to paused by another actor, the next pass does not sleep and
executes a full iteration (checkpoint, agent run, promise check, save). -/
theorem run_ignores_externally_persisted_pause :
    diskC2.status = .paused
    ∧ memC2.status = .running
    ∧ LoopEng.runStep envC2 2 memC2 diskC2
      = (.next memSteppedC2 memSteppedC2,
         [.createCheckpointEv 1, .agentRunEv 1, .verifyPromiseEv 1, .saveEv])
    ∧ LoopEvent.sleepTick ∉ (LoopEng.runStep envC2 2 memC2 diskC2).2 := by
  decide

/-- Claim C2, amended: pause and cancel act on the *in-memory* status. While
the in-memory status is paused, each pass sleeps one 1-second tick and
re-reads the persisted state (so a pause or cancel written to disk by
another actor takes effect only once the in-memory status is already
paused); when the in-memory status is cancelled, the run returns failure
immediately, executing no further iteration. -/
theorem runStep_pause_and_cancel (env : LoopEnv) (maxIter : Nat) (mem disk : LoopState)
    (hlt : mem.current_iteration < maxIter) :
    (mem.status = .paused →
      LoopEng.runStep env maxIter mem disk = (.next disk disk, [.sleepTick]))
    ∧ (mem.status = .cancelled →
      LoopEng.runStep env maxIter mem disk = (.done false mem disk, [])) := by
  constructor <;> intro hs <;> simp [LoopEng.runStep, hlt, hs]

/-- Witness for the amended C2 theorem at a paused and at a cancelled state. -/
theorem runStep_pause_and_cancel_witness :
    (memPausedC2.current_iteration < 2
      ∧ ((memPausedC2.status = .paused →
            LoopEng.runStep envC2 2 memPausedC2 diskC2 = (.next diskC2 diskC2, [.sleepTick]))
        ∧ (memPausedC2.status = .cancelled →
            LoopEng.runStep envC2 2 memPausedC2 diskC2
              = (.done false memPausedC2 diskC2, []))))
    ∧ (memCancelledC2.current_iteration < 2
      ∧ ((memCancelledC2.status = .paused →
            LoopEng.runStep envC2 2 memCancelledC2 diskC2 = (.next diskC2 diskC2, [.sleepTick]))
        ∧ (memCancelledC2.status = .cancelled →
            LoopEng.runStep envC2 2 memCancelledC2 diskC2
              = (.done false memCancelledC2 diskC2, [])))) :=
  ⟨⟨by decide, runStep_pause_and_cancel envC2 2 memPausedC2 diskC2 (by decide)⟩,
   ⟨by decide, runStep_pause_and_cancel envC2 2 memCancelledC2 diskC2 (by decide)⟩⟩

/-- Claim C6, counterexample: the tool hub's `_stop_server` never sends the
protocol shutdown request (it goes straight to SIGTERM), and the
language-server pool's `_stop_server` never sends SIGTERM (a timed-out stop
goes straight to SIGKILL) — so the claimed common stop sequence
shutdown-request, exit-notification, SIGTERM, SIGKILL holds for neither
variant. -/
theorem stop_sequence_counterexample :
    StopEvent.sendShutdownRequest ∉ Pool.mcpHubStopTrace true true true true
    ∧ StopEvent.sigterm ∉ Pool.lspPoolStopTrace true true true false := by
  decide

/-- Claim C6, amended: the two variants stop differently. The tool hub
cancels its stderr collector, sends SIGTERM, waits up to 5 s and SIGKILLs on
timeout, sending no protocol shutdown or exit message; the language-server
pool sends the shutdown request bounded by 5 s, then the exit notification,
waits up to 5 s for exit and SIGKILLs on timeout, never sending SIGTERM (and
it keeps no stderr collector to release). In every case where the server is
in the map it is removed from the server map. -/
theorem stop_server_traces :
    Pool.mcpHubStopTrace true true true true
      = [.cancelStderrTask, .sigterm, .processWait, .removeFromMap]
    ∧ Pool.mcpHubStopTrace true true true false
      = [.cancelStderrTask, .sigterm, .processWait, .sigkill, .processWait, .removeFromMap]
    ∧ Pool.lspPoolStopTrace true true true true
      = [.sendShutdownRequest, .sendExitNotification, .processWait, .removeFromMap]
    ∧ Pool.lspPoolStopTrace true true true false
      = [.sendShutdownRequest, .sendExitNotification, .processWait, .sigkill,
         .processWait, .removeFromMap]
    ∧ Pool.lspPoolStopTrace true true false true
      = [.sendShutdownRequest, .sigkill, .processWait, .removeFromMap]
    ∧ (∀ st hp e : Bool, StopEvent.removeFromMap ∈ Pool.mcpHubStopTrace true st hp e)
    ∧ (∀ hp rs ex : Bool, StopEvent.removeFromMap ∈ Pool.lspPoolStopTrace true hp rs ex)
    ∧ (∀ st hp e : Bool,
        StopEvent.sendShutdownRequest ∉ Pool.mcpHubStopTrace true st hp e)
    ∧ (∀ hp rs ex : Bool, StopEvent.sigterm ∉ Pool.lspPoolStopTrace true hp rs ex) := by
  decide

/-- Claim C7: the resource-limit logic of `ServerManager.warm` coincides,
for every pool, cap and estimate, with the claim's description — when
admitting the new server would exceed the concurrent-server count, the
oldest-`last_query` server is evicted, and eviction of the oldest repeats
for the memory cap until the pool plus the estimate fits (or no server
remains), before the new server is admitted. -/
theorem warm_matches_oldest_eviction_claim (max_servers : Nat)
    (memory_limit_mb estimated : ℚ) (pool : List ServerState) (newS : ServerState) :
    Pool.warmModel max_servers memory_limit_mb estimated pool newS
      = Pool.warmClaimed max_servers memory_limit_mb estimated pool newS := by
  unfold Pool.warmModel Pool.warmClaimed Pool.warmEvictPhase
  split
  · rfl
  · simp only [ge_iff_le, gt_iff_lt, Nat.lt_succ_iff]
    split
    · split
      · rfl
      · next hfit => rw [evictForMemory_of_fits _ _ _ hfit]
    · split
      · rfl
      · next hfit => rw [evictForMemory_of_fits _ _ _ hfit]

end Claims

end Daedalos
